import Mathlib

/-!
Verification model of the Synapse legal-document analyzer backend
(the Deno/Hono server in the repository).  The definitions below are a
shallow embedding of the server's handlers and of the staged mock
analysis (`simulateAnalysis`); timestamps are modelled as natural
numbers, the external key-value store as explicit `Option`-valued
fields of a system state.
-/

namespace Synapse

/-- Document record, as created by the `POST /documents/upload` handler. -/
structure Document where
  id : String
  user_id : String
  name : String
  file_path : String
  file_type : String
  file_size : Nat
  uploaded_at : Nat
  analysis_status : String
  analysis_progress : Nat
deriving DecidableEq

/-- One clause finding of the mock analysis. -/
structure Clause where
  id : String
  clauseType : String
  text : String
  risk_score : Nat
  explanation : String
  suggestions : List String
deriving DecidableEq

/-- Analysis record written by `simulateAnalysis` on completion. -/
structure Analysis where
  document_id : String
  clauses : List Clause
  summary : String
  overall_risk_score : Rat
  missing_clauses : List String
  compliance_score : Nat
  analyzed_at : Nat
deriving DecidableEq

/-- User profile record (`user_profile:{id}` in the key-value store). -/
structure Profile where
  id : String
  email : String
  name : String
  created_at : Nat
  documents_analyzed : Nat
  subscription_tier : String
  updated_at : Option Nat
deriving DecidableEq

/-- MIME types accepted by the upload handler. -/
def allowedTypes : List String :=
  ["application/pdf",
   "application/vnd.openxmlformats-officedocument.wordprocessingml.document",
   "application/msword"]

/-- The file field of the multipart form data. -/
structure UploadFile where
  name : String
  mimeType : String
  size : Nat
deriving DecidableEq

/-- Form data of an upload request: optional `file` and `fileName` fields. -/
structure UploadRequest where
  file : Option UploadFile
  fileName : Option String
deriving DecidableEq

/-- Outcome of the upload handler: HTTP status, the document in the JSON
response, the document written to the key-value store, and whether the
analysis runner was scheduled. -/
structure UploadOutcome where
  status : Nat
  respDoc : Option Document
  storedDoc : Option Document
  analysisScheduled : Bool
deriving DecidableEq

/-- JavaScript truthiness of the `fileName` form value: `null` and the
empty string are falsy, so the handler falls back to `file.name`. -/
def effectiveFileName (fn : Option String) (fallback : String) : String :=
  match fn with
  | none => fallback
  | some s => if s = "" then fallback else s

/-- Sanitization `fileName.replace(/[^a-zA-Z0-9.-]/g, "_")`. -/
def sanitize (s : String) : String :=
  s.map (fun c => if c.isAlphanum ∨ c = '.' ∨ c = '-' then c else '_')

/-- File extension: `file.name.split(".").pop()` (split is never empty). -/
def fileExtension (name : String) : String :=
  (name.splitOn ".").getLastD ""

/-- The storage path `${userId}/${Date.now()}_${sanitized}.${extension}`. -/
def uniquePath (userId : String) (now : Nat) (fileName ext : String) : String :=
  userId ++ "/" ++ toString now ++ "_" ++ sanitize fileName ++ "." ++ ext

/-- The `POST /documents/upload` handler after authentication.  The
handler reads `file.name` while computing the display name before the
missing-file check, so when both form fields are absent (or `fileName`
is empty) that read throws and the catch block answers 500. -/
def uploadHandler (userId : String) (req : UploadRequest) (storageOk : Bool)
    (now : Nat) (newId : String) : UploadOutcome :=
  match req.file with
  | none =>
    match req.fileName with
    | none => { status := 500, respDoc := none, storedDoc := none, analysisScheduled := false }
    | some s =>
      if s = "" then
        { status := 500, respDoc := none, storedDoc := none, analysisScheduled := false }
      else
        { status := 400, respDoc := none, storedDoc := none, analysisScheduled := false }
  | some f =>
    let fileName := effectiveFileName req.fileName f.name
    if f.mimeType ∈ allowedTypes then
      if storageOk then
        let doc : Document :=
          { id := newId
            user_id := userId
            name := fileName
            file_path := uniquePath userId now fileName (fileExtension f.name)
            file_type := f.mimeType
            file_size := f.size
            uploaded_at := now
            analysis_status := "pending"
            analysis_progress := 0 }
        { status := 200, respDoc := some doc, storedDoc := some doc, analysisScheduled := true }
      else
        { status := 500, respDoc := none, storedDoc := none, analysisScheduled := false }
    else
      { status := 400, respDoc := none, storedDoc := none, analysisScheduled := false }

/-- The fixed stage table of `simulateAnalysis`: status label and progress. -/
def analysisStages : List (String × Nat) :=
  [("extracting", 25), ("classifying", 50), ("analyzing", 75), ("complete", 100)]

/-- One stage update: overwrite status and progress of the document. -/
def applyStage (d : Document) (s : String × Nat) : Document :=
  { d with analysis_status := s.1, analysis_progress := s.2 }

/-- The sequence of Document states over the runner's lifetime, starting
from the freshly created record: the initial state followed by the state
after each of the four stage writes. -/
def runnerStates (d : Document) : List Document :=
  List.scanl applyStage d analysisStages

/-- The (status, progress) pairs observed over the document's lifetime. -/
def statusTrace (d : Document) : List (String × Nat) :=
  (runnerStates d).map (fun x => (x.analysis_status, x.analysis_progress))

/-- The mock analysis record `simulateAnalysis` stores on completion. -/
def mockAnalysis (documentId : String) (now : Nat) : Analysis :=
  { document_id := documentId
    clauses :=
      [{ id := "1"
         clauseType := "liability"
         text := "The Company shall not be liable for any indirect, incidental, special, consequential, or punitive damages..."
         risk_score := 7
         explanation := "High risk - Very broad liability limitation that may not be enforceable in all jurisdictions."
         suggestions := ["Consider mutual liability limitations", "Add carve-outs for gross negligence"] },
       { id := "2"
         clauseType := "termination"
         text := "Either party may terminate this agreement with thirty (30) days written notice..."
         risk_score := 4
         explanation := "Medium risk - Standard termination clause but lacks specific breach triggers."
         suggestions := ["Add termination for cause provisions", "Specify cure periods"] },
       { id := "3"
         clauseType := "confidentiality"
         text := "Each party agrees to maintain in confidence all Confidential Information..."
         risk_score := 2
         explanation := "Low risk - Well-structured confidentiality provision with proper definitions."
         suggestions := ["Consider adding return of materials clause"] }]
    summary := "This contract contains standard commercial terms with some areas requiring attention. The liability limitation clause is particularly broad and may need revision."
    overall_risk_score := (43 : Rat) / 10
    missing_clauses := ["Force Majeure", "Dispute Resolution", "Governing Law"]
    compliance_score := 78
    analyzed_at := now }

/-- Increment of the profile counter on analysis completion. -/
def bumpProfile (p : Profile) : Profile :=
  { p with documents_analyzed := p.documents_analyzed + 1 }

/-- System state for one document's run: the `document:{id}` record, the
`analysis:{id}` record, the owner's profile, and the runner's position
(number of completed runner actions: 0-3 stage writes done, 4 all stage
writes done, 5 analysis written, 6 profile updated). -/
structure SysState where
  doc : Option Document
  analysis : Option Analysis
  profile : Option Profile
  pc : Nat
deriving DecidableEq

/-- State right after the upload handler created the document record. -/
def initState (d : Document) (p : Option Profile) : SysState :=
  { doc := some d, analysis := none, profile := p, pc := 0 }

/-- One stage iteration of the runner's loop: re-read the document and,
if still present, overwrite its status and progress. -/
def stageWrite (s : SysState) : SysState :=
  { s with doc := s.doc.map (fun d => applyStage d (analysisStages.getD s.pc ("", 0)))
           pc := s.pc + 1 }

/-- The runner's write of the analysis record after the loop. -/
def writeStep (docId : String) (now : Nat) (s : SysState) : SysState :=
  { s with analysis := some (mockAnalysis docId now), pc := 5 }

/-- The runner's final action: increment the owner's counter if the
profile exists, otherwise skip. -/
def statsStep (s : SysState) : SysState :=
  { s with profile := s.profile.map bumpProfile, pc := 6 }

/-- A full uninterrupted run of `simulateAnalysis` from a given state. -/
def runAll (docId : String) (now : Nat) (s : SysState) : SysState :=
  statsStep (writeStep docId now (stageWrite (stageWrite (stageWrite (stageWrite s)))))

/-- Small-step transition relation: the runner's actions interleaved
with a possible concurrent deletion of the document record. -/
inductive Step (docId : String) (now : Nat) : SysState → SysState → Prop where
  | stage (s : SysState) (h : s.pc < 4) : Step docId now s (stageWrite s)
  | writeAnalysis (s : SysState) (h : s.pc = 4) : Step docId now s (writeStep docId now s)
  | bumpStats (s : SysState) (h : s.pc = 5) : Step docId now s (statsStep s)
  | deleteDoc (s : SysState) : Step docId now s { s with doc := none }

/-- Reachability from the post-upload state. -/
def Reachable (docId : String) (now : Nat) (s₀ s : SysState) : Prop :=
  Relation.ReflTransGen (Step docId now) s₀ s

/-- Status a surviving document record shows after `k` runner actions. -/
def statusAt : Nat → String
  | 0 => "pending"
  | 1 => "extracting"
  | 2 => "classifying"
  | 3 => "analyzing"
  | _ => "complete"

/-- Progress a surviving document record shows after `k` runner actions. -/
def progressAt : Nat → Nat
  | 0 => 0
  | 1 => 25
  | 2 => 50
  | 3 => 75
  | _ => 100

/-- Partial update body of a `PUT /profile` request; each field either
absent or supplying a new value (the handler spreads the whole body over
the stored profile). -/
structure ProfileUpdates where
  id : Option String := none
  email : Option String := none
  name : Option String := none
  created_at : Option Nat := none
  documents_analyzed : Option Nat := none
  subscription_tier : Option String := none
deriving DecidableEq

/-- The merge `{...currentProfile, ...updates, updated_at: now}` done by
the `PUT /profile` handler. -/
def mergeProfile (p : Profile) (u : ProfileUpdates) (now : Nat) : Profile :=
  { id := u.id.getD p.id
    email := u.email.getD p.email
    name := u.name.getD p.name
    created_at := u.created_at.getD p.created_at
    documents_analyzed := u.documents_analyzed.getD p.documents_analyzed
    subscription_tier := u.subscription_tier.getD p.subscription_tier
    updated_at := some now }

/-- Ordering used by `GET /documents`: newest (largest upload time) first. -/
def newerFirst (a b : Document) : Prop :=
  b.uploaded_at ≤ a.uploaded_at

instance : DecidableRel newerFirst :=
  fun a b => inferInstanceAs (Decidable (b.uploaded_at ≤ a.uploaded_at))

instance : IsTotal Document newerFirst :=
  ⟨fun a b => (Nat.le_total b.uploaded_at a.uploaded_at).elim Or.inl Or.inr⟩

instance : IsTrans Document newerFirst :=
  ⟨fun _ _ _ hab hbc => Nat.le_trans hbc hab⟩

/-- The `GET /documents` handler: scan all document records, keep the
caller's, sort by upload time descending. -/
def listDocuments (store : List Document) (userId : String) : List Document :=
  List.insertionSort newerFirst (store.filter (fun d => d.user_id == userId))

/-- Response of `GET /documents/:id/analysis`. -/
inductive AnalysisResp where
  | notFound
  | ok (analysis : Option Analysis)
deriving DecidableEq

/-- The `GET /documents/:id/analysis` handler, given the results of the
two key-value reads. -/
def getDocumentAnalysis (doc : Option Document) (analysis : Option Analysis)
    (userId : String) : AnalysisResp :=
  match doc with
  | none => .notFound
  | some d => if d.user_id = userId then .ok analysis else .notFound

end Synapse

namespace Synapse

/-- Example documents and states used by witnesses and counterexamples. -/
def exDoc : Document :=
  { id := "doc1", user_id := "alice", name := "contract.pdf"
    file_path := "alice/7_contract.pdf.pdf", file_type := "application/pdf"
    file_size := 100, uploaded_at := 7
    analysis_status := "pending", analysis_progress := 0 }

/-- Example PDF upload file. -/
def exPdf : UploadFile :=
  { name := "contract.pdf", mimeType := "application/pdf", size := 100 }

/-- Example plain-text upload file. -/
def exTxt : UploadFile :=
  { name := "notes.txt", mimeType := "text/plain", size := 10 }

/-- C1: starting from the record created with status pending and
progress 0, the runner's writes produce exactly the lifetime sequence
pending/0, extracting/25, classifying/50, analyzing/75, complete/100;
progress is non-decreasing along it; and a progress of 100 occurs only
with the terminal status complete. -/
theorem stage_sequence_exact (d : Document)
    (hs : d.analysis_status = "pending") (hp : d.analysis_progress = 0) :
    statusTrace d =
      [("pending", 0), ("extracting", 25), ("classifying", 50),
       ("analyzing", 75), ("complete", 100)]
    ∧ List.Pairwise (fun a b => a.2 ≤ b.2) (statusTrace d)
    ∧ ∀ p ∈ statusTrace d, p.2 = 100 → p.1 = "complete" := by
  have h : statusTrace d =
      [("pending", 0), ("extracting", 25), ("classifying", 50),
       ("analyzing", 75), ("complete", 100)] := by
    simp [statusTrace, runnerStates, analysisStages, applyStage, hs, hp]
  refine ⟨h, ?_, ?_⟩
  · rw [h]; decide
  · rw [h]; decide

/-- Witness for C1 at a concrete freshly created document. -/
theorem stage_sequence_exact_witness :
    statusTrace exDoc =
      [("pending", 0), ("extracting", 25), ("classifying", 50),
       ("analyzing", 75), ("complete", 100)]
    ∧ List.Pairwise (fun a b => a.2 ≤ b.2) (statusTrace exDoc)
    ∧ ∀ p ∈ statusTrace exDoc, p.2 = 100 → p.1 = "complete" :=
  stage_sequence_exact exDoc rfl rfl

/-- C4 (code bug): when the form data has neither a file nor a fileName
field, reading `file.name` throws before the missing-file check and the
handler answers 500, not the 400 the spec requires; with a fileName
present the missing-file check does answer 400.  In both cases no
Document is stored and no analysis is scheduled. -/
theorem upload_missing_file_behavior :
    uploadHandler "alice" { file := none, fileName := none } true 0 "d1" =
      { status := 500, respDoc := none, storedDoc := none, analysisScheduled := false }
    ∧ uploadHandler "alice" { file := none, fileName := some "contract.pdf" } true 0 "d1" =
      { status := 400, respDoc := none, storedDoc := none, analysisScheduled := false } := by
  decide

/-- C5: an upload whose file has a MIME type outside the allowed set is
rejected with 400 and neither stores a Document nor schedules analysis. -/
theorem upload_bad_mime_rejected (uid : String) (f : UploadFile) (fn : Option String)
    (storageOk : Bool) (now : Nat) (newId : String)
    (hm : f.mimeType ∉ allowedTypes) :
    uploadHandler uid { file := some f, fileName := fn } storageOk now newId =
      { status := 400, respDoc := none, storedDoc := none, analysisScheduled := false } := by
  simp [uploadHandler, hm]

/-- Witness for C5: a text/plain upload is rejected. -/
theorem upload_bad_mime_rejected_witness :
    uploadHandler "alice" { file := some exTxt, fileName := none } true 0 "d1" =
      { status := 400, respDoc := none, storedDoc := none, analysisScheduled := false } :=
  upload_bad_mime_rejected "alice" exTxt none true 0 "d1" (by decide)

/-- C9: a valid upload (file present, allowed MIME type, storage write
succeeds) answers 200, returns and stores the same Document, and that
Document has analysis status pending and progress 0. -/
theorem upload_creates_pending (uid : String) (f : UploadFile) (fn : Option String)
    (now : Nat) (newId : String) (hm : f.mimeType ∈ allowedTypes) :
    (uploadHandler uid { file := some f, fileName := fn } true now newId).status = 200
    ∧ (uploadHandler uid { file := some f, fileName := fn } true now newId).respDoc =
        (uploadHandler uid { file := some f, fileName := fn } true now newId).storedDoc
    ∧ ((uploadHandler uid { file := some f, fileName := fn } true now newId).storedDoc.map
        (fun d => (d.analysis_status, d.analysis_progress))) = some ("pending", 0)
    ∧ (uploadHandler uid { file := some f, fileName := fn } true now newId).analysisScheduled = true := by
  simp [uploadHandler, hm]

/-- Witness for C9: a concrete valid PDF upload. -/
theorem upload_creates_pending_witness :
    (uploadHandler "alice" { file := some exPdf, fileName := none } true 7 "doc1").status = 200
    ∧ (uploadHandler "alice" { file := some exPdf, fileName := none } true 7 "doc1").respDoc =
        (uploadHandler "alice" { file := some exPdf, fileName := none } true 7 "doc1").storedDoc
    ∧ ((uploadHandler "alice" { file := some exPdf, fileName := none } true 7 "doc1").storedDoc.map
        (fun d => (d.analysis_status, d.analysis_progress))) = some ("pending", 0)
    ∧ (uploadHandler "alice" { file := some exPdf, fileName := none } true 7 "doc1").analysisScheduled = true :=
  upload_creates_pending "alice" exPdf none 7 "doc1" (by decide)

/-- C10: a validated upload whose storage write fails answers 500 and
leaves the state unchanged: no Document stored, no analysis scheduled. -/
theorem upload_storage_failure (uid : String) (f : UploadFile) (fn : Option String)
    (now : Nat) (newId : String) (hm : f.mimeType ∈ allowedTypes) :
    uploadHandler uid { file := some f, fileName := fn } false now newId =
      { status := 500, respDoc := none, storedDoc := none, analysisScheduled := false } := by
  simp [uploadHandler, hm]

/-- Witness for C10: a concrete PDF upload with a failing storage write. -/
theorem upload_storage_failure_witness :
    uploadHandler "alice" { file := some exPdf, fileName := none } false 7 "doc1" =
      { status := 500, respDoc := none, storedDoc := none, analysisScheduled := false } :=
  upload_storage_failure "alice" exPdf none 7 "doc1" (by decide)

end Synapse

namespace Synapse

/-- C6: the stored analysis always has exactly 3 clause findings,
overall risk score 4.3, compliance score 78, the three named missing
clauses, and its content (everything except the document id and the
completion timestamp) is the same for every document and time, hence
independent of the uploaded document. -/
theorem analysis_content_fixed (documentId : String) (now : Nat) :
    (mockAnalysis documentId now).clauses.length = 3
    ∧ (mockAnalysis documentId now).overall_risk_score = (43 : Rat) / 10
    ∧ (mockAnalysis documentId now).compliance_score = 78
    ∧ "Force Majeure" ∈ (mockAnalysis documentId now).missing_clauses
    ∧ "Dispute Resolution" ∈ (mockAnalysis documentId now).missing_clauses
    ∧ "Governing Law" ∈ (mockAnalysis documentId now).missing_clauses
    ∧ ∀ (otherId : String) (otherNow : Nat),
        (mockAnalysis documentId now).clauses = (mockAnalysis otherId otherNow).clauses
        ∧ (mockAnalysis documentId now).summary = (mockAnalysis otherId otherNow).summary
        ∧ (mockAnalysis documentId now).overall_risk_score =
            (mockAnalysis otherId otherNow).overall_risk_score
        ∧ (mockAnalysis documentId now).missing_clauses =
            (mockAnalysis otherId otherNow).missing_clauses
        ∧ (mockAnalysis documentId now).compliance_score =
            (mockAnalysis otherId otherNow).compliance_score := by
  refine ⟨rfl, rfl, rfl, ?_, ?_, ?_, fun otherId otherNow => ⟨rfl, rfl, rfl, rfl, rfl⟩⟩
  all_goals simp [mockAnalysis]

/-- C7: a full run of the analysis increments the owner's counter by
exactly one relative to its value before the run started; when no
profile exists the step is skipped and no profile is created. -/
theorem profile_counter_increment (docId : String) (now : Nat) (s : SysState) :
    ((runAll docId now s).profile.map Profile.documents_analyzed) =
      (s.profile.map (fun p => p.documents_analyzed + 1))
    ∧ (s.profile = none → (runAll docId now s).profile = none) := by
  cases hp : s.profile <;>
    simp [runAll, statsStep, writeStep, stageWrite, bumpProfile, hp]

/-- Witness for C7: run at a concrete state without a profile. -/
theorem profile_counter_increment_witness :
    (runAll "doc1" 7 (initState exDoc none)).profile = none :=
  (profile_counter_increment "doc1" 7 (initState exDoc none)).2 rfl

end Synapse

namespace Synapse

/-- Example stored profile used by the C3 theorems. -/
def exProfile : Profile :=
  { id := "alice", email := "alice@example.com", name := "Alice"
    created_at := 1, documents_analyzed := 3
    subscription_tier := "free", updated_at := none }

/-- Counterexample to C3: the `PUT /profile` handler spreads the whole
request body over the stored profile, so a request whose body contains
a `documents_analyzed` field changes the counter. -/
theorem profile_put_counter_cex :
    (mergeProfile exProfile { documents_analyzed := some 999 } 9).documents_analyzed ≠
      exProfile.documents_analyzed := by
  decide

/-- C3 (amended): a `PUT /profile` request whose body does not contain a
`documents_analyzed` field leaves the stored counter unchanged. -/
theorem profile_put_preserves_counter (p : Profile) (u : ProfileUpdates) (now : Nat)
    (h : u.documents_analyzed = none) :
    (mergeProfile p u now).documents_analyzed = p.documents_analyzed := by
  simp [mergeProfile, h]

/-- Witness for amended C3: an update touching only the display name. -/
theorem profile_put_preserves_counter_witness :
    (mergeProfile exProfile { name := some "Alicia" } 9).documents_analyzed =
      exProfile.documents_analyzed :=
  profile_put_preserves_counter exProfile { name := some "Alicia" } 9 rfl

end Synapse

namespace Synapse

/-- A document owned by a different user, for the C8 witness. -/
def exDocBob : Document :=
  { id := "doc2", user_id := "bob", name := "lease.pdf"
    file_path := "bob/9_lease.pdf.pdf", file_type := "application/pdf"
    file_size := 50, uploaded_at := 9
    analysis_status := "pending", analysis_progress := 0 }

/-- C8: `GET /documents` returns exactly the stored documents owned by
the caller — a document appears in the listing if and only if it is in
the store and owned by the caller — sorted newest first, and
`GET /documents/:id/analysis` answers 404 when the document record is
absent or owned by a different user. -/
theorem list_documents_owner_sorted (store : List Document) (uid : String) :
    (∀ d : Document, d ∈ listDocuments store uid ↔ (d ∈ store ∧ d.user_id = uid))
    ∧ List.Sorted newerFirst (listDocuments store uid)
    ∧ (∀ a, getDocumentAnalysis none a uid = .notFound)
    ∧ (∀ (d : Document) (a : Option Analysis), d.user_id ≠ uid →
        getDocumentAnalysis (some d) a uid = .notFound) := by
  refine ⟨?_, List.sorted_insertionSort newerFirst _, fun a => rfl, ?_⟩
  · intro d
    rw [listDocuments, List.mem_insertionSort, List.mem_filter]
    simp
  · intro d a hne
    simp [getDocumentAnalysis, hne]

/-- Witness for C8: a concrete two-user store, exercising both the
completeness direction of the listing and the foreign-document 404. -/
theorem list_documents_owner_sorted_witness :
    exDoc ∈ listDocuments [exDoc, exDocBob] "alice"
    ∧ getDocumentAnalysis (some exDocBob) none "alice" = .notFound :=
  ⟨((list_documents_owner_sorted [exDoc, exDocBob] "alice").1 exDoc).2 ⟨by decide, rfl⟩,
   (list_documents_owner_sorted [exDoc, exDocBob] "alice").2.2.2 exDocBob none (by decide)⟩

end Synapse

namespace Synapse

/-- Invariant of the runner's interleaved execution: a surviving
document record always shows the status and progress of the last
completed stage, and the analysis record exists exactly from the fifth
runner action on. -/
theorem reachable_inv (docId : String) (now : Nat) (d : Document) (p : Option Profile)
    (s : SysState) (hs : d.analysis_status = "pending") (hp : d.analysis_progress = 0)
    (h : Reachable docId now (initState d p) s) :
    (∀ d', s.doc = some d' →
        d'.analysis_status = statusAt s.pc ∧ d'.analysis_progress = progressAt s.pc)
    ∧ (s.analysis.isSome = true ↔ 5 ≤ s.pc) := by
  induction h with
  | refl =>
      refine ⟨?_, by simp [initState]⟩
      intro d' hd'
      simp [initState] at hd'
      subst hd'
      exact ⟨hs, hp⟩
  | tail hab hstep ih =>
      obtain ⟨ih1, ih2⟩ := ih
      cases hstep with
      | stage hlt =>
          rename_i t
          constructor
          · intro d' hd'
            rcases ht : t.doc with _ | d₀
            · simp [stageWrite, ht] at hd'
            · simp [stageWrite, ht] at hd'
              subst hd'
              have hcases : t.pc = 0 ∨ t.pc = 1 ∨ t.pc = 2 ∨ t.pc = 3 := by omega
              rcases hcases with h0 | h0 | h0 | h0 <;>
                simp [stageWrite, applyStage, analysisStages, statusAt, progressAt, h0]
          · show t.analysis.isSome = true ↔ 5 ≤ (stageWrite t).pc
            rw [ih2]
            simp only [stageWrite]
            omega
      | writeAnalysis hpc =>
          rename_i t
          refine ⟨?_, by simp [writeStep]⟩
          intro d' hd'
          have hh := ih1 d' hd'
          rw [hpc] at hh
          exact hh
      | bumpStats hpc =>
          rename_i t
          refine ⟨?_, ?_⟩
          · intro d' hd'
            have hh := ih1 d' hd'
            rw [hpc] at hh
            exact hh
          · show t.analysis.isSome = true ↔ 5 ≤ (statsStep t).pc
            rw [ih2, hpc]
            simp [statsStep]
      | deleteDoc =>
          exact ⟨fun d' hd' => by simp at hd', ih2⟩

/-- For any position past the analysis write, the stage table shows the
terminal status. -/
theorem statusAt_terminal (n : Nat) (hn : 4 ≤ n) : statusAt n = "complete" := by
  rcases n with _ | _ | _ | _ | m
  · omega
  · omega
  · omega
  · omega
  · rfl

/-- The reachable state after the four stage writes but before the
analysis write, used as the C2 counterexample. -/
def c2BadState : SysState :=
  stageWrite (stageWrite (stageWrite (stageWrite (initState exDoc none))))

/-- Counterexample to C2: in the reachable state `c2BadState` the
document's status is already `complete` while no Analysis record
exists, so existence of the Analysis record is not equivalent to the
status being `complete`. -/
theorem analysis_exists_iff_complete_cex :
    Reachable "doc1" 7 (initState exDoc none) c2BadState
    ∧ ¬(c2BadState.analysis.isSome = true ↔
        c2BadState.doc.map Document.analysis_status = some "complete") := by
  constructor
  · exact Relation.ReflTransGen.tail
      (Relation.ReflTransGen.tail
        (Relation.ReflTransGen.tail
          (Relation.ReflTransGen.tail Relation.ReflTransGen.refl
            (Step.stage _ (by decide)))
          (Step.stage _ (by decide)))
        (Step.stage _ (by decide)))
      (Step.stage _ (by decide))
  · decide

/-- C2 (amended): in every reachable state, if the Analysis record
exists and the Document record is still present, the Document's status
is `complete`.  The unamended equivalence fails in the window between
the final stage write and the analysis write, and an Analysis record
can also outlive a concurrently deleted Document record. -/
theorem analysis_implies_complete (docId : String) (now : Nat) (d : Document)
    (p : Option Profile) (s : SysState)
    (hs : d.analysis_status = "pending") (hp : d.analysis_progress = 0)
    (h : Reachable docId now (initState d p) s) :
    ∀ d', s.doc = some d' → s.analysis.isSome = true → d'.analysis_status = "complete" := by
  intro d' hd' ha
  obtain ⟨inv1, inv2⟩ := reachable_inv docId now d p s hs hp h
  have h5 : 5 ≤ s.pc := inv2.1 ha
  rw [(inv1 d' hd').1]
  exact statusAt_terminal s.pc (by omega)

/-- Witness for amended C2: after the four stage writes and the
analysis write, the surviving document record shows the terminal
status. -/
theorem analysis_implies_complete_witness :
    ({ exDoc with analysis_status := "complete", analysis_progress := 100 } : Document).analysis_status = "complete" :=
  analysis_implies_complete "doc1" 7 exDoc none (writeStep "doc1" 7 c2BadState) rfl rfl
    (Relation.ReflTransGen.tail
      (Relation.ReflTransGen.tail
        (Relation.ReflTransGen.tail
          (Relation.ReflTransGen.tail
            (Relation.ReflTransGen.tail Relation.ReflTransGen.refl
              (Step.stage _ (by decide)))
            (Step.stage _ (by decide)))
          (Step.stage _ (by decide)))
        (Step.stage _ (by decide)))
      (Step.writeAnalysis _ (by decide)))
    { exDoc with analysis_status := "complete", analysis_progress := 100 }
    (by decide) rfl

end Synapse
